import Mathlib

/-!
Verification of the page-format decoder and checksum codec of the `sos`
salvage tool (`src/sos.cc`, `src/codec.h`) against its specification.

The C++ code is shallowly embedded: the memory-mapped source file is a total
map from byte addresses (`Int`, since the code does pointer arithmetic that
can in principle go below the mapping base) to byte values; machine integers
are `Nat`/`Int` with explicit `% 2 ^ 64` / `% 2 ^ 32` where the C code relies
on unsigned wrap-around; the unbounded `while` loop over overflow pages is
embedded with an explicit fuel parameter, `none` meaning the loop has not
terminated within the given fuel.
-/

/-! ## Page geometry constants (src/sos.cc lines 31-35) -/

def page_size : Nat := 4096

def reserved_page_size : Nat := 8

def usable_size : Nat := page_size - reserved_page_size

def max_local : Nat := ((usable_size - 12) * 64 / 255) - 23

def min_local : Nat := ((usable_size - 12) * 32 / 255) - 23

/-! ## Byte-level memory helpers

The mapped file is a total function from addresses to stored values; `rd`
normalises a stored value to a byte, as reading a `char` from real memory
always yields a value below 256. -/

def rd (f : Int → Nat) (a : Int) : Nat := f a % 256

/-- Big-endian 32-bit read, as done by `htonl(*(uint32_t *) p)` on a
little-endian host. -/
def rd32be (f : Int → Nat) (a : Int) : Nat :=
  ((rd f a * 256 + rd f (a + 1)) * 256 + rd f (a + 2)) * 256 + rd f (a + 3)

/-- The `n` bytes starting at address `a`. -/
def readBytes (f : Int → Nat) (a : Int) (n : Nat) : List Nat :=
  (List.range n).map (fun k => rd f (a + k))

/-- `memcpy(dst + pos, src, src.length)` on an owned buffer. -/
def writeRange (dst : List Nat) (pos : Nat) (src : List Nat) : List Nat :=
  dst.take pos ++ src ++ dst.drop (pos + src.length)

/-- Reinterpret a `uint32_t` value as a C `int`, as in the assignment
`int overflow_page_id = htonl(...)`. -/
def toInt32 (n : Nat) : Int :=
  if n % 2 ^ 32 < 2 ^ 31 then (n % 2 ^ 32 : Nat) else (n % 2 ^ 32 : Nat) - 2 ^ 32

/-! ## Data structures (src/sos.cc) -/

/-- `payload_t` (src/sos.cc lines 84-95).  `valid` defaults to `true` in the
source and the embedding records exactly the value the code puts there. -/
structure payload_t where
  payload_body_size : Nat
  payload : List Nat
  overflow_pages : List Int
  valid : Bool
deriving DecidableEq

/-- `index_page_t` (src/sos.cc lines 97-104): a borrowed view into the mapped
file.  `base` is the address of the mapping, `position` the address of the
page. -/
structure index_page_t where
  base : Int
  position : Int
  pno : Int
deriving DecidableEq

/-- The `index_page_t(base, pno)` constructor:
`position = base + ((pno - 1) * 4096)`. -/
def make_index_page (base pno : Int) : index_page_t :=
  ⟨base, base + (pno - 1) * 4096, pno⟩

/-- `database_t` (src/sos.cc lines 220-232). -/
structure database_t where
  fd : Int
  size : Int
  base : Int
deriving DecidableEq

/-- `database_t::get_page` (src/sos.cc lines 229-231): constructs the page
view with no bounds check of any kind. -/
def database_t.get_page (db : database_t) (pno : Int) : index_page_t :=
  make_index_page db.base pno

/-- Modelled from the spec: "`get_page(pno) -> slice` ... Fails if the file is
shorter than `pno * 4096`" (spec 4.4).  This failure check is absent from
`database_t::get_page` in src/sos.cc; the definition exists only to be
compared with the code's `database_t.get_page`. -/
def get_page_spec (db : database_t) (pno : Int) : Option index_page_t :=
  if db.size < pno * 4096 then none else some (make_index_page db.base pno)

/-! ## Varint decoding -/

/-- Modelled from the spec: `sqlite3GetVarint` is called by
`index_page_t::get_payload` but lives in the vendored engine amalgamation,
which is not under src/.  Spec 4.1: "First 1-8 bytes use the high bit as
continuation with 7 payload bits each, ordered most-significant-first; if the
9th byte is reached, all 8 of its bits contribute (total 64 bits)."
`k` counts the remaining one-byte steps before the 9th byte is forced. -/
def getVarintLoop (f : Int → Nat) (a : Int) : Nat → Nat → Nat → Nat × Nat
  | 0, i, acc => (acc * 256 + rd f (a + i), 9)
  | k + 1, i, acc =>
    let b := rd f (a + i)
    if b < 128 then (acc * 128 + b, i + 1)
    else getVarintLoop f a k (i + 1) (acc * 128 + b % 128)

/-- Modelled from the spec (see `getVarintLoop`): decode the varint at
address `a`, returning `(value, bytes consumed)`. -/
def getVarint (f : Int → Nat) (a : Int) : Nat × Nat :=
  getVarintLoop f a 8 0 0

/-! ## Embedded payload size (src/sos.cc lines 150-158) -/

/-- The `surplus` local of `calculate_embed_payload_size`.  The argument is a
`uint64_t`, so `payload_body_size - min_local` wraps modulo `2 ^ 64` when
`payload_body_size < min_local`. -/
def embed_surplus (payload_body_size : Nat) : Nat :=
  min_local + ((payload_body_size + (2 ^ 64 - min_local)) % 2 ^ 64) % (usable_size - 4)

/-- `index_page_t::calculate_embed_payload_size` (src/sos.cc lines 150-158). -/
def calculate_embed_payload_size (payload_body_size : Nat) : Nat :=
  if embed_surplus payload_body_size ≤ max_local then embed_surplus payload_body_size
  else min_local

/-! ## Overflow chain walk (src/sos.cc lines 167-180)

The source loop `while (overflow_page_id) { ... }` has no iteration bound
("XXX: sanity heck"), so it is embedded with fuel; `none` means the loop has
not reached the `overflow_page_id == 0` exit within `fuel` iterations. -/

/-- `index_page_t::loop_overflow_pages` body.  `buf` is
`payload.payload` (already resized to the declared size), `done` the write
position.  `todo = payload.payload.size() - done` is `uint64_t` arithmetic,
then clamped to `usable_size - 4`. -/
def loop_overflow_pages (f : Int → Nat) (base : Int) :
    Nat → Int → List Nat → Nat → Option (List Nat)
  | 0, overflow_page_id, buf, _done =>
    if overflow_page_id = 0 then some buf else none
  | fuel + 1, overflow_page_id, buf, done =>
    if overflow_page_id = 0 then some buf
    else
      let next_page_position : Int := base + (overflow_page_id - 1) * 4096
      let next_id := toInt32 (rd32be f next_page_position)
      let todo :=
        min ((buf.length + (2 ^ 64 - done % 2 ^ 64)) % 2 ^ 64) (usable_size - 4)
      loop_overflow_pages f base fuel next_id
        (writeRange buf done (readBytes f (next_page_position + 4) todo))
        (done + todo)

/-! ## Payload extraction (src/sos.cc lines 182-217) -/

/-- The second half of `index_page_t::get_payload` (src/sos.cc lines
201-216), from the `calculate_embed_payload_size` call on: given the decoded
declared size and the address of the payload body, build the payload, walking
the overflow chain when the declared size exceeds the embeddable size.  The
source never assigns `payload.valid`, so every constructed payload carries
`valid = true`. -/
def get_payload_core (f : Int → Nat) (base : Int) (size : Nat)
    (payload_body_position : Int) (fuel : Nat) : Option payload_t :=
  if size > calculate_embed_payload_size size then
    let buf0 := readBytes f payload_body_position
        (calculate_embed_payload_size size) ++
      List.replicate (size - calculate_embed_payload_size size) 0
    let overflow_page_id :=
      toInt32 (rd32be f (payload_body_position + calculate_embed_payload_size size))
    match loop_overflow_pages f base fuel overflow_page_id buf0
        (calculate_embed_payload_size size) with
    | none => none
    | some buf1 => some ⟨size, buf1, [overflow_page_id], true⟩
  else
    some ⟨size, readBytes f payload_body_position size, [], true⟩

/-- `index_page_t::get_payload` (src/sos.cc lines 182-217).  `cells` is
`index_cells_t::offsets`; `fuel` bounds the embedded overflow walk (the
source walk is unbounded).  The cell offset is looked up, the declared-size
varint decoded (after the 4-byte left-child pointer when the page flag byte
is `0x02`), and the rest is `get_payload_core`. -/
def get_payload (f : Int → Nat) (p : index_page_t) (cells : List Nat)
    (index : Nat) (fuel : Nat) : Option payload_t :=
  let cell_offset := cells.getD index 0
  let payload_header_position : Int := p.position + cell_offset
  let vr :=
    if rd f p.position = 2 then getVarint f (payload_header_position + 4)
    else getVarint f payload_header_position
  let payload_body_position : Int :=
    (if rd f p.position = 2 then payload_header_position + 4
     else payload_header_position) + vr.2
  get_payload_core f p.base vr.1 payload_body_position fuel

/-- The insert-selection logic of `restore_page` (src/sos.cc lines 412-434):
for each cell index, extract the payload and skip it when
`!payload.valid || payload.payload_body_size == 0`; otherwise its bytes are
inserted.  A `none` from `get_payload` models the unbounded overflow walk not
terminating (the real program would hang there, inserting nothing further). -/
def restore_page_inserts (f : Int → Nat) (p : index_page_t) (cells : List Nat)
    (number_of_cell : Nat) (fuel : Nat) : List (List Nat) :=
  (List.range number_of_cell).filterMap (fun i =>
    match get_payload f p cells i fuel with
    | none => none
    | some payload =>
      if payload.valid = false ∨ payload.payload_body_size = 0 then none
      else some payload.payload)

/-! ## The page checksum codec (src/codec.h) -/

/-- `page_checksum_codec_t` state (src/codec.h lines 43-50).  `pageSize` and
`reserveSize` are C `int`s. -/
structure page_checksum_codec_t where
  pageSize : Int
  reserveSize : Int
  filename : String
  silent : Bool

/-- Modelled from the spec: `SQLITE_DEFAULT_PAGE_SIZE`, "the engine's
compiled-in default (512 in practice here)" (spec 4.3); the macro is defined
in the vendored engine headers, which are not under src/. -/
def SQLITE_DEFAULT_PAGE_SIZE : Int := 512

/-- Little-endian byte serialisation of a `uint32_t`, as `sum_type_t` fields
are laid out in page memory on a little-endian host. -/
def w32le (x : Nat) : List Nat :=
  [x % 256, x / 256 % 256, x / 65536 % 256, x / 16777216 % 256]

/-- Little-endian 32-bit read of the first four bytes of `l`. -/
def r32le (l : List Nat) : Nat :=
  l.getD 0 0 % 256 + 256 * (l.getD 1 0 % 256) + 65536 * (l.getD 2 0 % 256) +
    16777216 * (l.getD 3 0 % 256)

/-- `page_checksum_codec_t::checksum` (src/codec.h lines 69-88).  The hash
(`hashlittle2`, external per spec 4.2) is a parameter; its two output words
are stored as `uint32_t`, hence the `% 2 ^ 32`.  Returns the C function's
boolean result together with the page buffer after the call (the source
mutates the trailer in place in write mode and leaves the buffer untouched in
verify mode). -/
def checksum (hash : List Nat → Nat → Nat → Nat × Nat) (pageNumber : Nat)
    (data : List Nat) (pageLen : Int) (write : Bool) : Bool × List Nat :=
  let dataLen : Nat := (pageLen - 8).toNat
  let h := hash (data.take dataLen) (pageNumber % 2 ^ 32) 0x5ca1ab1e
  let s1 := h.1 % 2 ^ 32
  let s2 := h.2 % 2 ^ 32
  if write then
    (true, data.take dataLen ++ w32le s1 ++ w32le s2 ++ data.drop (dataLen + 8))
  else
    if r32le (data.drop dataLen) = s1 ∧ r32le ((data.drop dataLen).drop 4) = s2
    then (true, data)
    else (false, data)

/-- `page_checksum_codec_t::codec` (src/codec.h lines 90-122).  `none` models
the `NULL` failure sentinel; `some` carries the page buffer handed back to
the engine. -/
def codec (hash : List Nat → Nat → Nat → Nat × Nat)
    (self : page_checksum_codec_t) (data : List Nat) (pageNumber : Nat)
    (op : Int) : Option (List Nat) :=
  let write : Bool := op == 6 || op == 7
  if pageNumber = 1 then
    let data1 :=
      if write = true ∧ SQLITE_DEFAULT_PAGE_SIZE < self.pageSize then
        (checksum hash pageNumber data SQLITE_DEFAULT_PAGE_SIZE write).2
      else data
    let r := checksum hash pageNumber data1 self.pageSize write
    if r.1 = true then some r.2 else none
  else
    if self.reserveSize ≠ 8 then none
    else
      let r := checksum hash pageNumber data self.pageSize write
      if r.1 = true then some r.2 else none

/-! ## Restore driver transaction skeleton (src/sos.cc lines 358-434)

The engine calls made by `start_transaction` / `commit_transaction` /
`full_checkpoint` are recorded as events; the counters are the C `int`
fields of `restore_context_t`. -/

inductive engine_event
  | begin_tx
  | open_cursor
  | close_cursor
  | commit
  | checkpoint
deriving DecidableEq

/-- The transaction-related state of `restore_context_t`
(src/sos.cc lines 250-267) plus the log of engine calls issued. -/
structure restore_context_t where
  pages_in_transaction : Int
  pages_per_transaction : Int
  transaction_in_checkpoint : Int
  transaction_per_checkpoint : Int
  log : List engine_event
deriving DecidableEq

/-- `start_transaction` (src/sos.cc lines 381-392). -/
def start_transaction (ctx : restore_context_t) : restore_context_t :=
  if ctx.pages_in_transaction > 0 then
    { ctx with pages_in_transaction := ctx.pages_in_transaction + 1 }
  else
    { ctx with
      pages_in_transaction := 1
      log := ctx.log ++ [.begin_tx, .open_cursor] }

/-- `full_checkpoint` (src/sos.cc lines 373-379). -/
def full_checkpoint (ctx : restore_context_t) : restore_context_t :=
  { ctx with transaction_in_checkpoint := 0, log := ctx.log ++ [.checkpoint] }

/-- `commit_transaction` (src/sos.cc lines 394-410). -/
def commit_transaction (ctx : restore_context_t) : restore_context_t :=
  if ctx.pages_in_transaction > ctx.pages_per_transaction then
    let ctx1 : restore_context_t :=
      { ctx with
        pages_in_transaction := 0
        log := ctx.log ++ [.close_cursor, .commit]
        transaction_in_checkpoint := ctx.transaction_in_checkpoint + 1 }
    if ctx1.transaction_in_checkpoint > ctx1.transaction_per_checkpoint then
      full_checkpoint ctx1
    else ctx1
  else ctx

/-- The transaction bracket of `restore_page` (src/sos.cc lines 412-434):
`start_transaction`, the per-cell inserts (irrelevant to the counters and
commit/checkpoint events, modelled by `restore_page_inserts` above), then
`commit_transaction`. -/
def restore_page_step (ctx : restore_context_t) : restore_context_t :=
  commit_transaction (start_transaction ctx)

/-- A fresh `restore_context_t` with the given limits: counters zero, no
engine calls issued yet. -/
def init_ctx (pages_per_transaction transaction_per_checkpoint : Int) :
    restore_context_t :=
  ⟨0, pages_per_transaction, 0, transaction_per_checkpoint, []⟩

/-- Driver state after `k` recognised index pages have been processed. -/
def run_pages (pages_per_transaction transaction_per_checkpoint : Int)
    (k : Nat) : restore_context_t :=
  Nat.iterate restore_page_step k
    (init_ctx pages_per_transaction transaction_per_checkpoint)

/-- Number of `BtreeCommit` calls in an event log. -/
def count_commits (l : List engine_event) : Nat := l.count .commit

/-- Number of `full_checkpoint` executions in an event log. -/
def count_checkpoints (l : List engine_event) : Nat := l.count .checkpoint

/-! ## Command-line handling of the optional arguments
(src/sos.cc lines 516-532)

The two `strtol` calls are abstracted to already-parsed integer values
(`a4` for `argv[4]`, `a5` for `argv[5]`); the malformed-string exits collapse
into the `< 1` validity exits, which is all the branch structure uses.
`none` models `exit(1)`. -/

def apply_optional_args (argc : Nat) (a4 a5 : Int) : Option (Int × Int) :=
  let pages_per_transaction : Int := 1024
  let transaction_per_checkpoint : Int := 10
  if argc = 5 then
    if a4 < 1 then none else some (a4, transaction_per_checkpoint)
  else if argc = 6 then
    if a5 < 1 then none else some (pages_per_transaction, a5)
  else some (pages_per_transaction, transaction_per_checkpoint)

/-! ## Concrete inputs used by witnesses and counterexamples -/

/-- The all-zero mapped file. -/
def zf : Int → Nat := fun _ => 0

/-- A trivial but admissible stand-in for the external two-word hash
(spec 4.2 fixes only its type and determinism as far as the codec's control
flow is concerned). -/
def hash0 : List Nat → Nat → Nat → Nat × Nat := fun _ s1 s2 => (s1, s2)

/-- A mapped file whose page 2 is an index leaf holding one cell
(offset 100) that declares a 2000-byte payload (varint `8f 50`) whose
overflow chain starts at page 2 itself: the next-link bytes of page 2
(addresses 4096-4099) and the first-overflow-page field of the cell
(addresses 4686-4689) both encode page number 2. -/
def cyc_file : Int → Nat := fun a =>
  if a = 4196 then 143
  else if a = 4197 then 80
  else if a = 4099 then 2
  else if a = 4689 then 2
  else 0

/-- A one-page-long file (4096 bytes). -/
def db_small : database_t := ⟨3, 4096, 0⟩

/-- A 16-byte page for codec state `c10_state` whose trailer already holds
exactly the checksum that `hash0` computes for page number 2. -/
def c10_page : List Nat := List.replicate 8 0 ++ w32le 2 ++ w32le 0x5ca1ab1e

/-- Codec state with `pageSize = 16` and `reserveSize = 0` (so the
non-page-1 reserve-size guard fires). -/
def c10_state : page_checksum_codec_t := ⟨16, 0, "template.sqlite", false⟩

/-! # Theorems -/

/-! ## Arithmetic facts about the geometry constants -/

theorem min_local_eq : min_local = 488 := by decide

theorem max_local_eq : max_local = 999 := by decide

theorem usable_sub4_eq : usable_size - 4 = 4084 := by decide

theorem embed_surplus_ge (P : Nat) : min_local ≤ embed_surplus P :=
  Nat.le_add_right _ _

theorem calc_ge_min (P : Nat) : min_local ≤ calculate_embed_payload_size P := by
  unfold calculate_embed_payload_size
  split
  · exact embed_surplus_ge P
  · exact Nat.le_refl _

theorem calc_le_max (P : Nat) : calculate_embed_payload_size P ≤ max_local := by
  unfold calculate_embed_payload_size
  split
  · assumption
  · decide

theorem embed_surplus_of_band (P : Nat) (h1 : min_local ≤ P)
    (h2 : P ≤ max_local) : embed_surplus P = P := by
  have hp : (2 : Nat) ^ 64 = 18446744073709551616 := by norm_num
  have h1' : 488 ≤ P := min_local_eq ▸ h1
  have h2' : P ≤ 999 := max_local_eq ▸ h2
  unfold embed_surplus
  rw [min_local_eq, usable_sub4_eq, hp]
  omega

theorem calc_eq_of_band (P : Nat) (h1 : min_local ≤ P) (h2 : P ≤ max_local) :
    calculate_embed_payload_size P = P := by
  unfold calculate_embed_payload_size
  rw [embed_surplus_of_band P h1 h2, if_pos h2]

/-! ## Structural facts about `get_payload_core` -/

theorem get_payload_core_spec (f : Int → Nat) (base : Int) (size : Nat)
    (pbp : Int) (fuel : Nat) (pay : payload_t)
    (h : get_payload_core f base size pbp fuel = some pay) :
    pay.valid = true ∧ pay.payload_body_size = size ∧
    (size ≤ calculate_embed_payload_size size → pay.overflow_pages = []) := by
  simp only [get_payload_core] at h
  split at h
  · split at h
    · exact absurd h (by simp)
    · injection h with h'
      subst h'
      refine ⟨rfl, rfl, fun hle => ?_⟩
      omega
  · injection h with h'
    subst h'
    exact ⟨rfl, rfl, fun _ => rfl⟩

/-! ## Claim C1 -/

/-- Claim C1 (corrected): for every `uint64_t` payload size `P`,
`calculate_embed_payload_size P` never exceeds `max_local`; it equals `P`
whenever `min_local ≤ P ≤ max_local` (for `P < min_local` the unsigned wrap
of `P - min_local` makes the surplus large and the function returns
`min_local` instead of `P`); and it is at least `min_local` whenever
`P > max_local`. -/
theorem C1_local_size_thresholds (P : Nat) (_hP : P < 2 ^ 64) :
    calculate_embed_payload_size P ≤ max_local ∧
    (min_local ≤ P → P ≤ max_local → calculate_embed_payload_size P = P) ∧
    (max_local < P → min_local ≤ calculate_embed_payload_size P) :=
  ⟨calc_le_max P, fun h1 h2 => calc_eq_of_band P h1 h2, fun _ => calc_ge_min P⟩

/-- Claim C1 counterexample: `P = 100` satisfies `P ≤ max_local`, yet
`calculate_embed_payload_size 100 = min_local = 488 ≠ 100`, because the
`uint64_t` subtraction `P - min_local` wraps for `P < min_local`.  This
refutes the claim's clause "local_size(P) equals P whenever
P <= max_local". -/
theorem C1_counterexample :
    100 ≤ max_local ∧ calculate_embed_payload_size 100 = min_local ∧
    min_local ≠ 100 := ⟨by decide, by decide, by decide⟩

/-- Concrete instantiation of `C1_local_size_thresholds` at `P = 700`. -/
theorem C1_witness :
    700 < 2 ^ 64 ∧ min_local ≤ 700 ∧ 700 ≤ max_local ∧
    calculate_embed_payload_size 700 = 700 ∧
    calculate_embed_payload_size 700 ≤ max_local :=
  ⟨by decide, by decide, by decide,
   (C1_local_size_thresholds 700 (by decide)).2.1 (by decide) (by decide),
   (C1_local_size_thresholds 700 (by decide)).1⟩

/-! ## Claim C9 -/

/-- Claim C9 (confirmed): for every `uint64_t` payload size `P` — including
`P < min_local`, where the subtraction wraps modulo `2 ^ 64` —
`calculate_embed_payload_size P` lies between `min_local` and `max_local`
inclusive; consequently `get_payload` never takes the overflow branch for a
cell whose declared size is at most `min_local` (its result carries an empty
`overflow_pages` list). -/
theorem C9_embed_size_always_local :
    (∀ P : Nat, P < 2 ^ 64 →
      min_local ≤ calculate_embed_payload_size P ∧
      calculate_embed_payload_size P ≤ max_local) ∧
    (∀ (f : Int → Nat) (p : index_page_t) (cells : List Nat)
        (index fuel : Nat) (pay : payload_t),
      get_payload f p cells index fuel = some pay →
      pay.payload_body_size ≤ min_local → pay.overflow_pages = []) := by
  constructor
  · intro P _
    exact ⟨calc_ge_min P, calc_le_max P⟩
  · intro f p cells index fuel pay h hle
    simp only [get_payload] at h
    obtain ⟨-, hsz, hov⟩ := get_payload_core_spec _ _ _ _ _ _ h
    apply hov
    rw [← hsz] at *
    exact le_trans hle (calc_ge_min _)

/-- Concrete instantiation of `C9_embed_size_always_local`: the bound part at
`P = 100`, and the no-overflow part on the all-zero file, whose page-2 cell
at offset 0 declares size 0. -/
theorem C9_witness :
    (100 < 2 ^ 64 ∧ min_local ≤ calculate_embed_payload_size 100) ∧
    (get_payload zf (make_index_page 0 2) [0] 0 0 = some ⟨0, [], [], true⟩ ∧
      (0 : Nat) ≤ min_local ∧
      (⟨0, [], [], true⟩ : payload_t).overflow_pages = []) :=
  ⟨⟨by decide, (C9_embed_size_always_local.1 100 (by decide)).1⟩,
   ⟨by decide, by decide,
    C9_embed_size_always_local.2 zf (make_index_page 0 2) [0] 0 0
      ⟨0, [], [], true⟩ (by decide) (by decide)⟩⟩

/-! ## Claim C3 -/

/-- Claim C3 (corrected): `get_payload` never returns a payload with
`valid = false` — none of the claimed invalidity checks (size 0, sanity cap,
premature chain, offset outside `[header_size, page_size -
reserved_page_size)`) exist in the source — and consequently the only cells
`restore_page` skips are those whose declared payload size is 0; all other
decoded cells of the page are inserted. -/
theorem C3_get_payload_always_valid :
    (∀ (f : Int → Nat) (p : index_page_t) (cells : List Nat)
        (index fuel : Nat) (pay : payload_t),
      get_payload f p cells index fuel = some pay → pay.valid = true) ∧
    (∀ (f : Int → Nat) (p : index_page_t) (cells : List Nat)
        (number_of_cell fuel : Nat),
      restore_page_inserts f p cells number_of_cell fuel =
        (List.range number_of_cell).filterMap (fun i =>
          match get_payload f p cells i fuel with
          | none => none
          | some payload =>
            if payload.payload_body_size = 0 then none
            else some payload.payload)) := by
  have hvalid : ∀ (f : Int → Nat) (p : index_page_t) (cells : List Nat)
      (index fuel : Nat) (pay : payload_t),
      get_payload f p cells index fuel = some pay → pay.valid = true := by
    intro f p cells index fuel pay h
    simp only [get_payload] at h
    exact (get_payload_core_spec _ _ _ _ _ _ h).1
  refine ⟨hvalid, ?_⟩
  intro f p cells number_of_cell fuel
  unfold restore_page_inserts
  congr 1
  funext i
  cases hgp : get_payload f p cells i fuel with
  | none => rfl
  | some pay =>
    have hv := hvalid f p cells i fuel pay hgp
    simp [hv]

/-- Claim C3 counterexample: on the all-zero file, the single cell of page 2
has offset 65535 — far outside `[header_size, page_size -
reserved_page_size)` — and declared payload size 0, two conditions under
which the claim requires `valid = false`; yet `get_payload` returns the
payload with `valid = true`. -/
theorem C3_counterexample :
    get_payload zf (make_index_page 0 2) [65535] 0 0 =
      some ⟨0, [], [], true⟩ ∧
    ¬ (65535 < page_size - reserved_page_size) ∧
    (⟨0, [], [], true⟩ : payload_t).valid ≠ false :=
  ⟨by decide, by decide, by decide⟩

/-- Concrete instantiation of `C3_get_payload_always_valid` on the all-zero
file. -/
theorem C3_witness :
    get_payload zf (make_index_page 0 3) [0] 0 0 = some ⟨0, [], [], true⟩ ∧
    (⟨0, [], [], true⟩ : payload_t).valid = true :=
  ⟨by decide,
   C3_get_payload_always_valid.1 zf (make_index_page 0 3) [0] 0 0
     ⟨0, [], [], true⟩ (by decide)⟩

/-! ## Claim C2 -/

/-- Claim C2 (refuting evidence): on `cyc_file`, whose overflow chain points
back to its own page (page 2's next-link is 2), the overflow walk never
reaches the `overflow_page_id == 0` exit no matter how many iterations are
allowed, and `get_payload` on the cell that starts that chain therefore
never returns: the source `while` loop has no upper bound on iterations, no
visited-page tracking, and does not stop on a full output buffer, so it runs
forever on this input. -/
theorem C2_overflow_cycle_never_terminates :
    (∀ (fuel done : Nat) (buf : List Nat),
      loop_overflow_pages cyc_file 0 fuel 2 buf done = none) ∧
    (∀ fuel : Nat,
      get_payload cyc_file (make_index_page 0 2) [100] 0 fuel = none) := by
  have hid : toInt32 (rd32be cyc_file (0 + ((2 : Int) - 1) * 4096)) = 2 := by
    decide
  have hloop : ∀ (fuel done : Nat) (buf : List Nat),
      loop_overflow_pages cyc_file 0 fuel 2 buf done = none := by
    intro fuel
    induction fuel with
    | zero =>
      intro done buf
      simp [loop_overflow_pages]
    | succ n ih =>
      intro done buf
      simp only [loop_overflow_pages]
      rw [if_neg (by decide : ¬ (2 : Int) = 0), hid]
      exact ih _ _
  refine ⟨hloop, fun fuel => ?_⟩
  have hred : get_payload cyc_file (make_index_page 0 2) [100] 0 fuel =
      (match loop_overflow_pages cyc_file 0 fuel 2
          (readBytes cyc_file 4198 488 ++ List.replicate 1512 0) 488 with
       | none => none
       | some buf1 => some ⟨2000, buf1, [2], true⟩) := rfl
  rw [hred, hloop]

/-! ## Claim C4 -/

/-- Driver-state invariant: while the page counter has not yet exceeded
`pages_per_transaction`, processing `j ≥ 1` recognised pages from a fresh
context has issued exactly one `BtreeBeginTrans`/cursor-open pair and
nothing else. -/
theorem run_pages_state (N M : Int) :
    ∀ j : Nat, 1 ≤ j → (j : Int) ≤ N →
    run_pages N M j =
      ⟨(j : Int), N, 0, M,
        [engine_event.begin_tx, engine_event.open_cursor]⟩ := by
  intro j
  induction j with
  | zero =>
    intro h1 _
    exact absurd h1 (by omega)
  | succ n ih =>
    intro _ h2
    by_cases hn : n = 0
    · subst hn
      have h1 : (1 : Int) ≤ N := by exact_mod_cast h2
      show run_pages N M 1 = _
      have hrun : run_pages N M 1 = restore_page_step (init_ctx N M) := rfl
      rw [hrun]
      unfold restore_page_step start_transaction init_ctx
      rw [if_neg (by norm_num : ¬ (0 : Int) > 0)]
      unfold commit_transaction
      rw [if_neg (by omega : ¬ (1 : Int) > N)]
      rfl
    · have hn1 : 1 ≤ n := Nat.one_le_iff_ne_zero.mpr hn
      have h2' : (n : Int) ≤ N := by push_cast at h2 ⊢; omega
      have hstep : run_pages N M (n + 1) =
          restore_page_step (run_pages N M n) := by
        unfold run_pages
        exact Function.iterate_succ_apply' _ _ _
      rw [hstep, ih hn1 h2']
      have hpos : ((n : Int)) > 0 := by exact_mod_cast hn1
      unfold restore_page_step start_transaction
      rw [if_pos hpos]
      unfold commit_transaction
      dsimp only
      rw [if_neg (by push_cast at h2; omega : ¬ ((n : Int) + 1 > N))]
      have : ((n + 1 : Nat) : Int) = (n : Int) + 1 := by push_cast; ring
      rw [this]

/-- Claim C4 (corrected): the open write transaction is committed (cursor
closed, then commit) only when the per-transaction page counter *strictly
exceeds* `pages_per_transaction` — i.e. after `pages_per_transaction + 1`
decoded source pages, not `pages_per_transaction` — and the full WAL
checkpoint runs only when the committed-transaction counter *strictly
exceeds* `transactions_per_checkpoint`, i.e. every
`transactions_per_checkpoint + 1` commits. -/
theorem C4_commit_checkpoint_boundaries :
    (∀ (N M : Int) (j : Nat), 1 ≤ j → (j : Int) ≤ N →
      count_commits (run_pages N M j).log = 0) ∧
    (∀ N M : Int, 1 ≤ N → 1 ≤ M →
      run_pages N M (N.toNat + 1) =
        ⟨0, N, 1, M,
          [engine_event.begin_tx, engine_event.open_cursor,
           engine_event.close_cursor, engine_event.commit]⟩) ∧
    (∀ ctx : restore_context_t,
      count_checkpoints (commit_transaction ctx).log =
        count_checkpoints ctx.log +
          (if ctx.pages_in_transaction > ctx.pages_per_transaction ∧
              ctx.transaction_in_checkpoint + 1 >
                ctx.transaction_per_checkpoint
           then 1 else 0)) := by
  refine ⟨?_, ?_, ?_⟩
  · intro N M j h1 h2
    rw [run_pages_state N M j h1 h2]
    rfl
  · intro N M hN hM
    have htn : ((N.toNat : Int)) = N := Int.toNat_of_nonneg (by omega)
    have h1 : 1 ≤ N.toNat := by omega
    have hstep : run_pages N M (N.toNat + 1) =
        restore_page_step (run_pages N M N.toNat) := by
      unfold run_pages
      exact Function.iterate_succ_apply' _ _ _
    rw [hstep, run_pages_state N M N.toNat h1 (by rw [htn])]
    unfold restore_page_step start_transaction
    rw [if_pos (by rw [htn]; omega : ((N.toNat : Int)) > 0)]
    unfold commit_transaction
    dsimp only
    rw [if_pos (by rw [htn]; omega : ((N.toNat : Int)) + 1 > N)]
    rw [if_neg (by omega : ¬ ((0 : Int) + 1 > M))]
    rfl
  · intro ctx
    unfold commit_transaction full_checkpoint count_checkpoints
    by_cases hpg : ctx.pages_in_transaction > ctx.pages_per_transaction
    · rw [if_pos hpg]
      dsimp only
      by_cases hck : ctx.transaction_in_checkpoint + 1 >
          ctx.transaction_per_checkpoint
      · rw [if_pos hck, if_pos ⟨hpg, hck⟩]
        simp [List.count_append]
      · rw [if_neg hck, if_neg (fun hand => absurd hand.2 hck)]
        simp [List.count_append]
    · rw [if_neg hpg, if_neg (fun hand => absurd hand.1 hpg)]
      simp

/-- Claim C4 counterexample: with `pages_per_transaction = 1`, after one
decoded source page has contributed inserts no commit has been issued —
the claim, as stated, requires one. -/
theorem C4_counterexample :
    count_commits (run_pages 1 10 1).log = 0 ∧ (0 : Nat) ≠ 1 :=
  ⟨by decide, by decide⟩

/-- Concrete instantiation of `C4_commit_checkpoint_boundaries` at
`pages_per_transaction = 2`, `transactions_per_checkpoint = 1`. -/
theorem C4_witness :
    (count_commits (run_pages 2 1 2).log = 0) ∧
    (run_pages 2 1 ((2 : Int).toNat + 1) =
      ⟨0, 2, 1, 1,
        [engine_event.begin_tx, engine_event.open_cursor,
         engine_event.close_cursor, engine_event.commit]⟩) ∧
    (count_checkpoints (commit_transaction (init_ctx 5 5)).log =
      count_checkpoints (init_ctx 5 5).log +
        (if (init_ctx 5 5).pages_in_transaction >
              (init_ctx 5 5).pages_per_transaction ∧
            (init_ctx 5 5).transaction_in_checkpoint + 1 >
              (init_ctx 5 5).transaction_per_checkpoint
         then 1 else 0)) :=
  ⟨C4_commit_checkpoint_boundaries.1 2 1 2 (by decide) (by decide),
   C4_commit_checkpoint_boundaries.2.1 2 1 (by decide) (by decide),
   C4_commit_checkpoint_boundaries.2.2 (init_ctx 5 5)⟩

/-! ## Claim C5 -/

/-- Claim C5 (code-bug evidence): when both optional positional arguments are
supplied (`argc = 6`), the guard `argc == 5` around the parsing of `argv[4]`
is false, so `pages_per_transaction` silently keeps its default 1024 and only
`argv[5]` takes effect — here `apply_optional_args 6 7 3 = some (1024, 3)`
although the usage text and the claim say the fourth argument 7 should set
`pages_per_transaction`.  With a single optional argument (`argc = 5`) or
none (`argc = 4`) the code behaves as claimed. -/
theorem C5_fourth_arg_ignored_when_both_present :
    apply_optional_args 6 7 3 = some (1024, 3) ∧
    apply_optional_args 5 7 3 = some (7, 10) ∧
    apply_optional_args 4 7 3 = some (1024, 10) := ⟨rfl, rfl, rfl⟩

/-! ## Claim C8 -/

/-- Claim C8 (corrected): `database_t::get_page pno` returns the borrowed
view whose position is exactly byte offset `(pno - 1) * 4096` from the
mapping base — i.e. the slice `[(pno-1)*4096, pno*4096)` of the mapped file —
for *every* `pno`, unconditionally: the function performs no length check
and cannot fail, even when the file is shorter than `pno * 4096` bytes
(callers must bound `pno` by `size / 4096` themselves). -/
theorem C8_get_page_unchecked (db : database_t) (pno : Int) :
    database_t.get_page db pno = make_index_page db.base pno ∧
    (database_t.get_page db pno).position = db.base + (pno - 1) * 4096 :=
  ⟨rfl, rfl⟩

/-- Claim C8 counterexample: `db_small` is 4096 bytes long — shorter than
`2 * 4096` — yet `get_page 2` does not fail: it returns the out-of-range
view at position 4096, where the spec-modelled `get_page_spec` fails. -/
theorem C8_counterexample :
    db_small.size < 2 * 4096 ∧
    database_t.get_page db_small 2 = make_index_page 0 2 ∧
    (database_t.get_page db_small 2).position = 4096 ∧
    get_page_spec db_small 2 = none :=
  ⟨by decide, by decide, by decide, by decide⟩

/-! ## Checksum / codec helper lemmas -/

theorem checksum_write_fst (hash : List Nat → Nat → Nat → Nat × Nat)
    (pno : Nat) (data : List Nat) (len : Int) :
    (checksum hash pno data len true).1 = true := rfl

theorem checksum_read_snd (hash : List Nat → Nat → Nat → Nat × Nat)
    (pno : Nat) (data : List Nat) (len : Int) :
    (checksum hash pno data len false).2 = data := by
  simp only [checksum, Bool.false_eq_true, if_false]
  split <;> rfl

theorem checksum_read_fst_iff (hash : List Nat → Nat → Nat → Nat × Nat)
    (pno : Nat) (d : List Nat) (len : Int) :
    (checksum hash pno d len false).1 = true ↔
      (r32le (d.drop (len - 8).toNat) =
          (hash (d.take (len - 8).toNat) (pno % 2 ^ 32) 0x5ca1ab1e).1 % 2 ^ 32 ∧
        r32le ((d.drop (len - 8).toNat).drop 4) =
          (hash (d.take (len - 8).toNat) (pno % 2 ^ 32) 0x5ca1ab1e).2 % 2 ^ 32) := by
  simp only [checksum, Bool.false_eq_true, if_false]
  split
  next hcond => exact iff_of_true rfl hcond
  next hcond => exact iff_of_false (by simp) hcond

theorem r32le_w32le_append (x : Nat) (hx : x < 2 ^ 32) (rest : List Nat) :
    r32le (w32le x ++ rest) = x := by
  show x % 256 % 256 + 256 * (x / 256 % 256 % 256) +
      65536 * (x / 65536 % 256 % 256) +
      16777216 * (x / 16777216 % 256 % 256) = x
  norm_num at hx ⊢
  omega

theorem r32le_w32le (x : Nat) (hx : x < 2 ^ 32) : r32le (w32le x) = x := by
  show x % 256 % 256 + 256 * (x / 256 % 256 % 256) +
      65536 * (x / 65536 % 256 % 256) +
      16777216 * (x / 16777216 % 256 % 256) = x
  norm_num at hx ⊢
  omega

/-! ## Claim C6 -/

/-- Claim C6 (confirmed): for every page number other than 1 the codec
callback returns the `NULL` failure sentinel unless the configured
`reserveSize` equals 8 (the size of the checksum trailer); and on a write
(`op` 6 or 7) of page 1 with configured `pageSize` above the engine's
compiled-in default, the result is the buffer obtained by *first* writing the
checksum as if the page were `SQLITE_DEFAULT_PAGE_SIZE` bytes long and *then*
writing the real-size checksum over the full page. -/
theorem C6_codec_page_rules :
    (∀ (hash : List Nat → Nat → Nat → Nat × Nat)
        (self : page_checksum_codec_t) (data : List Nat) (pageNumber : Nat)
        (op : Int), pageNumber ≠ 1 → self.reserveSize ≠ 8 →
      codec hash self data pageNumber op = none) ∧
    (∀ (hash : List Nat → Nat → Nat → Nat × Nat)
        (self : page_checksum_codec_t) (data : List Nat) (op : Int),
      (op = 6 ∨ op = 7) → SQLITE_DEFAULT_PAGE_SIZE < self.pageSize →
      codec hash self data 1 op =
        some ((checksum hash 1
          ((checksum hash 1 data SQLITE_DEFAULT_PAGE_SIZE true).2)
          self.pageSize true).2)) := by
  constructor
  · intro hash self data pageNumber op hpn hres
    simp only [codec]
    rw [if_neg hpn, if_pos hres]
  · intro hash self data op hop hlt
    have hw : (op == 6 || op == 7) = true := by
      rcases hop with h | h <;> simp [h]
    simp only [codec, hw, if_true, true_and]
    rw [if_pos hlt, if_pos (checksum_write_fst _ _ _ _)]

/-- Concrete instantiation of `C6_codec_page_rules`: page 2 with
`reserveSize = 0` fails; a page-1 write with `pageSize = 600 > 512` produces
the double checksum. -/
theorem C6_witness :
    codec hash0 ⟨600, 0, "template.sqlite", false⟩ [] 2 3 = none ∧
    codec hash0 ⟨600, 8, "template.sqlite", false⟩ [] 1 6 =
      some ((checksum hash0 1
        ((checksum hash0 1 [] SQLITE_DEFAULT_PAGE_SIZE true).2)
        (⟨600, 8, "template.sqlite", false⟩ : page_checksum_codec_t).pageSize
        true).2) :=
  ⟨C6_codec_page_rules.1 hash0 ⟨600, 0, "template.sqlite", false⟩ [] 2 3
      (by decide) (by decide),
   C6_codec_page_rules.2 hash0 ⟨600, 8, "template.sqlite", false⟩ [] 6
      (Or.inl rfl) (by decide)⟩

/-! ## Claim C7 -/

/-- Claim C7 (confirmed): for every 4096-byte page content and every page
number, running `checksum` in write mode and then in read (verify) mode on
the resulting buffer succeeds, and the first 4088 bytes are unchanged by the
two operations (write only rewrites the 8-byte trailer; verify does not
touch the buffer at all). -/
theorem C7_checksum_roundtrip (hash : List Nat → Nat → Nat → Nat × Nat)
    (data : List Nat) (pageNumber : Nat) (h : data.length = 4096) :
    (checksum hash pageNumber ((checksum hash pageNumber data 4096 true).2)
        4096 false).1 = true ∧
    ((checksum hash pageNumber data 4096 true).2).take 4088 =
      data.take 4088 ∧
    (checksum hash pageNumber ((checksum hash pageNumber data 4096 true).2)
        4096 false).2 = (checksum hash pageNumber data 4096 true).2 := by
  have hA : (data.take 4088).length = 4088 := by
    rw [List.length_take, h]
    omega
  have hnil : data.drop 4096 = [] := by
    rw [← h, List.drop_length]
  have hd1 : (checksum hash pageNumber data 4096 true).2 =
      data.take 4088 ++
        (w32le ((hash (data.take 4088) (pageNumber % 2 ^ 32)
            0x5ca1ab1e).1 % 2 ^ 32) ++
         w32le ((hash (data.take 4088) (pageNumber % 2 ^ 32)
            0x5ca1ab1e).2 % 2 ^ 32)) := by
    show data.take 4088 ++
        w32le ((hash (data.take 4088) (pageNumber % 2 ^ 32)
          0x5ca1ab1e).1 % 2 ^ 32) ++
        w32le ((hash (data.take 4088) (pageNumber % 2 ^ 32)
          0x5ca1ab1e).2 % 2 ^ 32) ++
        data.drop 4096 = _
    rw [hnil, List.append_nil, List.append_assoc]
  have htake : ((checksum hash pageNumber data 4096 true).2).take 4088 =
      data.take 4088 := by
    rw [hd1]
    exact List.take_left' hA
  have hdropped : ((checksum hash pageNumber data 4096 true).2).drop 4088 =
      w32le ((hash (data.take 4088) (pageNumber % 2 ^ 32)
        0x5ca1ab1e).1 % 2 ^ 32) ++
      w32le ((hash (data.take 4088) (pageNumber % 2 ^ 32)
        0x5ca1ab1e).2 % 2 ^ 32) := by
    rw [hd1]
    exact List.drop_left' hA
  refine ⟨?_, htake, checksum_read_snd _ _ _ _⟩
  rw [checksum_read_fst_iff]
  constructor
  · show r32le (((checksum hash pageNumber data 4096 true).2).drop 4088) =
      (hash (((checksum hash pageNumber data 4096 true).2).take 4088)
        (pageNumber % 2 ^ 32) 0x5ca1ab1e).1 % 2 ^ 32
    rw [hdropped, htake]
    exact r32le_w32le_append _ (Nat.mod_lt _ (by norm_num)) _
  · show r32le ((((checksum hash pageNumber data 4096 true).2).drop
        4088).drop 4) =
      (hash (((checksum hash pageNumber data 4096 true).2).take 4088)
        (pageNumber % 2 ^ 32) 0x5ca1ab1e).2 % 2 ^ 32
    rw [hdropped, htake]
    have hdrop4 : (w32le ((hash (data.take 4088) (pageNumber % 2 ^ 32)
          0x5ca1ab1e).1 % 2 ^ 32) ++
        w32le ((hash (data.take 4088) (pageNumber % 2 ^ 32)
          0x5ca1ab1e).2 % 2 ^ 32)).drop 4 =
        w32le ((hash (data.take 4088) (pageNumber % 2 ^ 32)
          0x5ca1ab1e).2 % 2 ^ 32) := rfl
    rw [hdrop4]
    exact r32le_w32le _ (Nat.mod_lt _ (by norm_num))

/-- Concrete instantiation of `C7_checksum_roundtrip` on the all-zero page
with page number 5. -/
theorem C7_witness :
    (List.replicate 4096 (0 : Nat)).length = 4096 ∧
    (checksum hash0 5
      ((checksum hash0 5 (List.replicate 4096 0) 4096 true).2)
      4096 false).1 = true :=
  ⟨by rw [List.length_replicate],
   (C7_checksum_roundtrip hash0 (List.replicate 4096 0) 5
     (by rw [List.length_replicate])).1⟩

/-! ## Claim C10 -/

/-- On a non-write op, whenever the reserve-size guard does not fire
(`reserveSize = 8` or page 1), the codec reduces to a pure checksum
verification. -/
theorem codec_read_shape (hash : List Nat → Nat → Nat → Nat × Nat)
    (self : page_checksum_codec_t) (data : List Nat) (pageNumber : Nat)
    (op : Int) (hw : (op == 6 || op == 7) = false)
    (hok : self.reserveSize = 8 ∨ pageNumber = 1) :
    codec hash self data pageNumber op =
      if (checksum hash pageNumber data self.pageSize false).1 = true
      then some (checksum hash pageNumber data self.pageSize false).2
      else none := by
  by_cases hpn : pageNumber = 1
  · subst hpn
    simp only [codec, hw, if_true, Bool.false_eq_true, false_and, if_false]
  · rcases hok with hres | h1
    · simp only [codec, hw]
      rw [if_neg hpn, if_neg (fun hne => hne hres)]
    · exact absurd h1 hpn

/-- Claim C10 (corrected): for every op other than 6 and 7 the codec runs in
verify mode and never mutates the page buffer — a successful call returns
the buffer unchanged and the underlying verify-mode `checksum` leaves the
buffer untouched whether it succeeds or fails; *provided* `reserveSize = 8`
or the page number is 1, it returns the `NULL` sentinel exactly when the
computed checksum pair differs from the pair stored in the trailer.  (When
`reserveSize ≠ 8` on a page other than 1 the codec returns `NULL` regardless
of the checksum, which is what the unqualified claim misses.) -/
theorem C10_codec_read_is_pure_verify
    (hash : List Nat → Nat → Nat → Nat × Nat)
    (self : page_checksum_codec_t) (data : List Nat) (pageNumber : Nat)
    (op : Int) (h6 : op ≠ 6) (h7 : op ≠ 7) :
    (∀ d, codec hash self data pageNumber op = some d → d = data) ∧
    (checksum hash pageNumber data self.pageSize false).2 = data ∧
    (self.reserveSize = 8 ∨ pageNumber = 1 →
      (codec hash self data pageNumber op = none ↔
        (checksum hash pageNumber data self.pageSize false).1 = false)) := by
  have hw : (op == 6 || op == 7) = false := by
    simp [h6, h7]
  have hsome : ∀ (hok : self.reserveSize = 8 ∨ pageNumber = 1) (d : List Nat),
      codec hash self data pageNumber op = some d → d = data := by
    intro hok d hd
    rw [codec_read_shape hash self data pageNumber op hw hok] at hd
    by_cases hr : (checksum hash pageNumber data self.pageSize false).1 = true
    · rw [if_pos hr] at hd
      injection hd with hd'
      rw [← hd']
      exact checksum_read_snd _ _ _ _
    · rw [if_neg hr] at hd
      exact absurd hd (by simp)
  refine ⟨?_, checksum_read_snd _ _ _ _, ?_⟩
  · intro d hd
    by_cases hpn : pageNumber = 1
    · exact hsome (Or.inr hpn) d hd
    · by_cases hres : self.reserveSize = 8
      · exact hsome (Or.inl hres) d hd
      · simp only [codec, hw] at hd
        rw [if_neg hpn, if_pos hres] at hd
        exact absurd hd (by simp)
  · intro hok
    rw [codec_read_shape hash self data pageNumber op hw hok]
    by_cases hr : (checksum hash pageNumber data self.pageSize false).1 = true
    · rw [if_pos hr]
      exact iff_of_false (by simp) (by simp [hr])
    · rw [if_neg hr]
      refine iff_of_true rfl ?_
      cases hb : (checksum hash pageNumber data self.pageSize false).1 with
      | false => rfl
      | true => exact absurd hb hr

/-- Claim C10 counterexample: on `c10_page` (whose trailer holds exactly the
checksum pair that `hash0` computes for page 2) with `reserveSize = 0`, a
read (`op = 3`) of page 2 returns the `NULL` sentinel even though the
computed checksum pair equals the stored pair — refuting "returns the null
failure sentinel exactly when the computed checksum pair differs". -/
theorem C10_counterexample :
    codec hash0 c10_state c10_page 2 3 = none ∧
    (checksum hash0 2 c10_page c10_state.pageSize false).1 = true :=
  ⟨by decide, by decide⟩

/-- Concrete instantiation of `C10_codec_read_is_pure_verify` at `op = 3`,
page 2, `reserveSize = 8`. -/
theorem C10_witness :
    ((3 : Int) ≠ 6) ∧ ((3 : Int) ≠ 7) ∧
    (codec hash0 ⟨4096, 8, "template.sqlite", false⟩ [] 2 3 = none ↔
      (checksum hash0 2 []
        (⟨4096, 8, "template.sqlite", false⟩ :
          page_checksum_codec_t).pageSize false).1 = false) :=
  ⟨by decide, by decide,
   (C10_codec_read_is_pure_verify hash0 ⟨4096, 8, "template.sqlite", false⟩
     [] 2 3 (by decide) (by decide)).2.2 (Or.inl rfl)⟩
